import Mathlib

/-!
Verification of the California housing price predictor
(`california_housing_app.py`, Strategy A of the specification).

The Python code computes everything with IEEE doubles, but every quantity
involved is a small decimal constant or a slider value with one decimal
digit, so we embed the arithmetic over `ℚ` (exact rational arithmetic):
all claims under study are about the algebraic structure of the formula,
not about floating-point rounding.  Python's `int(...)` conversion
truncates toward zero; it is embedded as `pyInt` below.
-/

/-- Python `int(q)`: truncation of a rational toward zero. -/
def pyInt (q : ℚ) : ℤ := if q < 0 then Int.ceil q else Int.floor q

/-- Source line 23: `base_price = 206856`. -/
def base_price : ℚ := 206856

/-- Source line 26: `income_factor = (med_inc / 3.87) * 120000`. -/
def income_factor (med_inc : ℚ) : ℚ := med_inc / 3.87 * 120000

/-- Source line 30: `coastal_premium = max(0, (-122 - longitude) * 8000)`. -/
def coastal_premium (longitude : ℚ) : ℚ := max 0 ((-122 - longitude) * 8000)

/-- Source line 33: `latitude_adjustment = (35 - latitude) * 5000`. -/
def latitude_adjustment (latitude : ℚ) : ℚ := (35 - latitude) * 5000

/-- Source line 36: `age_factor = max(0, (50 - house_age) * 800)`. -/
def age_factor (house_age : ℚ) : ℚ := max 0 ((50 - house_age) * 800)

/-- Source line 39: `rooms_factor = (ave_rooms - 5.33) * 5000`. -/
def rooms_factor (ave_rooms : ℚ) : ℚ := (ave_rooms - 5.33) * 5000

/-- Source line 40: `bedrooms_factor = (ave_bedrms - 1.08) * 8000`. -/
def bedrooms_factor (ave_bedrms : ℚ) : ℚ := (ave_bedrms - 1.08) * 8000

/-- Source line 43: `occupancy_factor = (2.92 - ave_occup) * 3000`. -/
def occupancy_factor (ave_occup : ℚ) : ℚ := (2.92 - ave_occup) * 3000

/-- Source line 46: `population_factor = (population - 1425) * 2`. -/
def population_factor (population : ℚ) : ℚ := (population - 1425) * 2

/-- Source lines 49-59: the raw additive price, before the regional
multiplier and the final clamp are applied. -/
def total_price (med_inc house_age latitude longitude ave_rooms ave_bedrms
    population ave_occup : ℚ) : ℚ :=
  base_price + income_factor med_inc + coastal_premium longitude +
  latitude_adjustment latitude + age_factor house_age + rooms_factor ave_rooms +
  bedrooms_factor ave_bedrms + occupancy_factor ave_occup +
  population_factor population

/-- Source line 63: the Bay Area guard `longitude < -121.5 and latitude > 37.0`. -/
def bay_area_check (latitude longitude : ℚ) : Prop :=
  longitude < -121.5 ∧ latitude > 37.0

/-- Source line 67: the SoCal coastal guard `longitude < -117.5 and latitude < 34.5`. -/
def socal_coastal_check (latitude longitude : ℚ) : Prop :=
  longitude < -117.5 ∧ latitude < 34.5

/-- Source line 71: the LA metro guard
`-118.5 < longitude < -117.5 and 33.5 < latitude < 34.5`. -/
def la_metro_check (latitude longitude : ℚ) : Prop :=
  -118.5 < longitude ∧ longitude < -117.5 ∧ 33.5 < latitude ∧ latitude < 34.5

instance (latitude longitude : ℚ) : Decidable (bay_area_check latitude longitude) :=
  inferInstanceAs (Decidable (_ ∧ _))

instance (latitude longitude : ℚ) : Decidable (socal_coastal_check latitude longitude) :=
  inferInstanceAs (Decidable (_ ∧ _))

instance (latitude longitude : ℚ) : Decidable (la_metro_check latitude longitude) :=
  inferInstanceAs (Decidable (_ ∧ _))

/-- The regional multiplier selected by the ordered `if/elif` chain of
source lines 63-72, with first matching rule winning and 1 as default. -/
def regional_multiplier (latitude longitude : ℚ) : ℚ :=
  if bay_area_check latitude longitude then 1.8
  else if socal_coastal_check latitude longitude then 1.4
  else if la_metro_check latitude longitude then 1.3
  else 1

/-- Source line 75: `total_price = max(50000, min(1500000, total_price))`. -/
def clamp_price (p : ℚ) : ℚ := max 50000 (min 1500000 p)

/-- Source lines 16-77: `predict_california_price`.  The `if/elif` chain of
lines 63-72 multiplies the running total in place; line 75 clamps; line 77
converts to `int`.  (The Python signature gives `ave_rooms`, `ave_bedrms`,
`population`, `ave_occup` the defaults 5.33, 1.08, 1425, 2.92; defaults are
passed explicitly here.) -/
def predict_california_price (med_inc house_age latitude longitude
    ave_rooms ave_bedrms population ave_occup : ℚ) : ℤ :=
  let tp := total_price med_inc house_age latitude longitude ave_rooms
    ave_bedrms population ave_occup
  let tp :=
    if bay_area_check latitude longitude then tp * 1.8
    else if socal_coastal_check latitude longitude then tp * 1.4
    else if la_metro_check latitude longitude then tp * 1.3
    else tp
  pyInt (clamp_price tp)

/-- The six outcomes of `get_location_insights` (source lines 79-92); the
strings returned by the Python function are fixed constants, so the
classification is embedded as an enumeration. -/
inductive Region where
  | sanFranciscoBayArea
  | losAngelesMetro
  | southernCaliforniaCoast
  | centralCoast
  | southernCaliforniaInland
  | northernCaliforniaInland
deriving DecidableEq

/-- Source lines 79-92: `get_location_insights(latitude, longitude)`,
an ordered `if/elif` chain, first match wins. -/
def get_location_insights (latitude longitude : ℚ) : Region :=
  if longitude < -121.5 ∧ latitude > 37.0 then .sanFranciscoBayArea
  else if -118.5 < longitude ∧ longitude < -117.5 ∧ 33.5 < latitude ∧ latitude < 34.5 then
    .losAngelesMetro
  else if longitude < -118.5 ∧ latitude < 34.5 then .southernCaliforniaCoast
  else if longitude < -118.5 then .centralCoast
  else if latitude < 35.0 then .southernCaliforniaInland
  else .northernCaliforniaInland

/-- Source line 202: Python evaluates `"Coast" in location_name or
"Bay Area" in location_name` on the fixed name strings of lines 82-92
("San Francisco Bay Area", "Los Angeles Metro", "Southern California
Coast", "Central Coast", "Southern California Inland", "Northern
California Inland"); on those six constants the substring test evaluates
as tabulated here. -/
def name_has_coast_or_bay : Region → Bool
  | .sanFranciscoBayArea => true
  | .losAngelesMetro => false
  | .southernCaliforniaCoast => true
  | .centralCoast => true
  | .southernCaliforniaInland => false
  | .northernCaliforniaInland => false

/-- The qualitative labels the app can print about an input
(source lines 159-167 and 202-205). -/
inductive Label where
  | affluentArea
  | budgetMarket
  | newConstruction
  | establishedNeighborhood
  | strongAppreciation
  | stableMarket
deriving DecidableEq

/-- Source lines 159-167: the "Market Context" labels, an `if/elif` on
`med_inc` followed by an independent `if/elif` on `house_age`. -/
def market_context (med_inc house_age : ℚ) : List Label :=
  (if med_inc > 10.0 then [Label.affluentArea]
   else if med_inc < 4.0 then [Label.budgetMarket]
   else []) ++
  (if house_age < 10 then [Label.newConstruction]
   else if house_age > 40 then [Label.establishedNeighborhood]
   else [])

/-- Source lines 202-205: the "Investment Context" labels, two independent
`if` statements. -/
def investment_context (latitude longitude med_inc : ℚ) : List Label :=
  (if name_has_coast_or_bay (get_location_insights latitude longitude) then
    [Label.strongAppreciation]
   else []) ++
  (if med_inc > 8.0 then [Label.stableMarket] else [])

/-- Source line 181: `confidence = int(predicted_price * 0.15)`. -/
def confidence (predicted_price : ℤ) : ℤ := pyInt ((predicted_price : ℚ) * 0.15)

/-- Source line 183, lower end of the displayed confidence range:
`predicted_price - confidence`. -/
def confidence_lower (predicted_price : ℤ) : ℤ :=
  predicted_price - confidence predicted_price

/-- Source line 183, upper end of the displayed confidence range:
`predicted_price + confidence`. -/
def confidence_upper (predicted_price : ℤ) : ℤ :=
  predicted_price + confidence predicted_price

/-!
Helper lemmas shared by the claim theorems below.
-/

/-- On nonnegative rationals Python truncation agrees with the floor. -/
lemma pyInt_eq_floor (q : ℚ) (h : 0 ≤ q) : pyInt q = Int.floor q := by
  unfold pyInt
  rw [if_neg (not_lt.mpr h)]

/-- The income factor in closed linear form: `(m / 3.87) * 120000 = m * (4000000/129)`. -/
lemma income_factor_eq (m : ℚ) : income_factor m = m * (4000000 / 129) := by
  unfold income_factor
  rw [show (3.87 : ℚ) = 387 / 100 by norm_num]
  ring

/-- The estimator factors as: raw additive total, times the selected regional
multiplier, clamped, truncated. -/
lemma predict_multiplier_form (mi ha lat lon r b p o : ℚ) :
    predict_california_price mi ha lat lon r b p o =
      pyInt (clamp_price (regional_multiplier lat lon *
        total_price mi ha lat lon r b p o)) := by
  unfold predict_california_price regional_multiplier
  split_ifs <;> simp [mul_comm]

/-- The clamp is the identity on [50000, 1500000]. -/
lemma clamp_price_id (p : ℚ) (h1 : 50000 ≤ p) (h2 : p ≤ 1500000) :
    clamp_price p = p := by
  unfold clamp_price
  rw [min_eq_right h2, max_eq_right h1]

/-- The selected regional multiplier is 1.8, 1.4 or 1; the 1.3 value of the
third branch is never selected, because its guard is strictly stronger than
the second branch's guard. -/
lemma regional_multiplier_cases (lat lon : ℚ) :
    regional_multiplier lat lon = 1.8 ∨ regional_multiplier lat lon = 1.4 ∨
      regional_multiplier lat lon = 1 := by
  unfold regional_multiplier
  by_cases h1 : bay_area_check lat lon
  · simp [h1]
  · by_cases h2 : socal_coastal_check lat lon
    · simp [h1, h2]
    · by_cases h3 : la_metro_check lat lon
      · exact absurd ⟨h3.2.1, h3.2.2.2⟩ h2
      · simp [h1, h2, h3]

/-- Interval bounds for the raw additive total over the documented input
domain: each summand is bounded on its slider range, and the sums of the
per-term bounds are 148985 and 803793. -/
lemma total_price_bounds (mi ha lat lon r b p o : ℚ)
    (hmi0 : 0.5 ≤ mi) (hmi1 : mi ≤ 15) (hha0 : 1 ≤ ha) (hha1 : ha ≤ 52)
    (hr0 : 1 ≤ r) (hr1 : r ≤ 10) (hb0 : 0.5 ≤ b) (hb1 : b ≤ 3)
    (hp0 : 3 ≤ p) (hp1 : p ≤ 10000) (ho0 : 1 ≤ o) (ho1 : o ≤ 6)
    (hlat0 : 32 ≤ lat) (hlat1 : lat ≤ 42) (hlon0 : -124 ≤ lon) (hlon1 : lon ≤ -114) :
    148985 ≤ total_price mi ha lat lon r b p o ∧
      total_price mi ha lat lon r b p o ≤ 803793 := by
  have hinc_lo : (15503 : ℚ) ≤ income_factor mi := by
    rw [income_factor_eq]; linarith
  have hinc_hi : income_factor mi ≤ 465117 := by
    rw [income_factor_eq]; linarith
  have hco_lo : (0 : ℚ) ≤ coastal_premium lon := le_max_left _ _
  have hco_hi : coastal_premium lon ≤ 16000 := by
    unfold coastal_premium
    apply max_le (by norm_num)
    linarith
  have hla_lo : (-35000 : ℚ) ≤ latitude_adjustment lat := by
    unfold latitude_adjustment; linarith
  have hla_hi : latitude_adjustment lat ≤ 15000 := by
    unfold latitude_adjustment; linarith
  have hage_lo : (0 : ℚ) ≤ age_factor ha := le_max_left _ _
  have hage_hi : age_factor ha ≤ 39200 := by
    unfold age_factor
    apply max_le (by norm_num)
    linarith
  have hro_lo : (-21650 : ℚ) ≤ rooms_factor r := by
    unfold rooms_factor; linarith
  have hro_hi : rooms_factor r ≤ 23350 := by
    unfold rooms_factor; linarith
  have hbe_lo : (-4640 : ℚ) ≤ bedrooms_factor b := by
    unfold bedrooms_factor; linarith
  have hbe_hi : bedrooms_factor b ≤ 15360 := by
    unfold bedrooms_factor; linarith
  have hoc_lo : (-9240 : ℚ) ≤ occupancy_factor o := by
    unfold occupancy_factor; linarith
  have hoc_hi : occupancy_factor o ≤ 5760 := by
    unfold occupancy_factor; linarith
  have hpo_lo : (-2844 : ℚ) ≤ population_factor p := by
    unfold population_factor; linarith
  have hpo_hi : population_factor p ≤ 17150 := by
    unfold population_factor; linarith
  unfold total_price base_price
  constructor <;> linarith

/-- On the documented input domain the price after the regional multiplier
lies strictly inside (50000, 1500000): the raw total is in
[148985, 803793] and the multiplier in {1, 1.4, 1.8}, and
803793 * 1.8 < 1500000 while 148985 * 1 > 50000. -/
lemma post_price_bounds (mi ha lat lon r b p o : ℚ)
    (hmi0 : 0.5 ≤ mi) (hmi1 : mi ≤ 15) (hha0 : 1 ≤ ha) (hha1 : ha ≤ 52)
    (hr0 : 1 ≤ r) (hr1 : r ≤ 10) (hb0 : 0.5 ≤ b) (hb1 : b ≤ 3)
    (hp0 : 3 ≤ p) (hp1 : p ≤ 10000) (ho0 : 1 ≤ o) (ho1 : o ≤ 6)
    (hlat0 : 32 ≤ lat) (hlat1 : lat ≤ 42) (hlon0 : -124 ≤ lon) (hlon1 : lon ≤ -114) :
    50000 < regional_multiplier lat lon * total_price mi ha lat lon r b p o ∧
      regional_multiplier lat lon * total_price mi ha lat lon r b p o < 1500000 := by
  obtain ⟨hlo, hhi⟩ := total_price_bounds mi ha lat lon r b p o hmi0 hmi1 hha0 hha1
    hr0 hr1 hb0 hb1 hp0 hp1 ho0 ho1 hlat0 hlat1 hlon0 hlon1
  rcases regional_multiplier_cases lat lon with h | h | h <;> rw [h] <;>
    constructor <;> linarith

/-- The estimator, without any domain restriction, always lands in
[50000, 1500000] because of the final clamp. -/
lemma predict_in_bounds (mi ha lat lon r b p o : ℚ) :
    50000 ≤ predict_california_price mi ha lat lon r b p o ∧
      predict_california_price mi ha lat lon r b p o ≤ 1500000 := by
  rw [predict_multiplier_form]
  set q := clamp_price (regional_multiplier lat lon *
    total_price mi ha lat lon r b p o) with hq
  have h1 : (50000 : ℚ) ≤ q := le_max_left _ _
  have h2 : q ≤ 1500000 := max_le (by norm_num) (min_le_left _ _)
  rw [pyInt_eq_floor q (by linarith)]
  constructor
  · exact Int.le_floor.mpr (by exact_mod_cast h1)
  · have h3 : ((Int.floor q : ℚ)) ≤ 1500000 := le_trans (Int.floor_le q) h2
    exact_mod_cast h3

/-!
The claim theorems.
-/

/-- Claim C1: for every input with all eight features inside the domains of
the specification (income [0.5,15], age [1,52], rooms [1,10], bedrooms
[0.5,3], population [3,10000], occupancy [1,6], latitude [32,42],
longitude [-124,-114]), the Strategy A estimator
`predict_california_price` returns a value within [50000, 1500000]. -/
theorem C1_output_within_bounds (mi ha lat lon r b p o : ℚ)
    (hmi0 : 0.5 ≤ mi) (hmi1 : mi ≤ 15) (hha0 : 1 ≤ ha) (hha1 : ha ≤ 52)
    (hr0 : 1 ≤ r) (hr1 : r ≤ 10) (hb0 : 0.5 ≤ b) (hb1 : b ≤ 3)
    (hp0 : 3 ≤ p) (hp1 : p ≤ 10000) (ho0 : 1 ≤ o) (ho1 : o ≤ 6)
    (hlat0 : 32 ≤ lat) (hlat1 : lat ≤ 42) (hlon0 : -124 ≤ lon) (hlon1 : lon ≤ -114) :
    50000 ≤ predict_california_price mi ha lat lon r b p o ∧
      predict_california_price mi ha lat lon r b p o ≤ 1500000 :=
  predict_in_bounds mi ha lat lon r b p o

/-- Witness for C1 at the spec's example input. -/
theorem C1_witness :
    50000 ≤ predict_california_price 8 25 34 (-118) 5.33 1.08 1425 2.92 ∧
      predict_california_price 8 25 34 (-118) 5.33 1.08 1425 2.92 ≤ 1500000 :=
  C1_output_within_bounds 8 25 34 (-118) 5.33 1.08 1425 2.92
    (by norm_num) (by norm_num) (by norm_num) (by norm_num)
    (by norm_num) (by norm_num) (by norm_num) (by norm_num)
    (by norm_num) (by norm_num) (by norm_num) (by norm_num)
    (by norm_num) (by norm_num) (by norm_num) (by norm_num)

/-- Counterexample to C2 as stated: the rectangle checks are NOT
non-overlapping — at latitude 34, longitude -118 both the SoCal-coastal
check and the LA-metro check hold (the LA-metro rectangle is contained in
the SoCal-coastal region, and only the elif ordering disambiguates). -/
theorem C2_counterexample :
    socal_coastal_check 34 (-118) ∧ la_metro_check 34 (-118) := by
  constructor
  · norm_num [socal_coastal_check]
  · norm_num [la_metro_check]

/-- Claim C2 (amended: the ordered rectangle checks are overlapping — the
LA-metro check is contained in the SoCal-coastal check — but first match
wins, so exactly one multiplier is applied): the Strategy A estimator
computes its raw price as base_price plus the income, coastal-premium
(floored at zero), latitude, age (floored at zero), room, bedroom,
occupancy and population terms, then applies exactly one regional
multiplier chosen by the ordered rule list (Bay Area 1.8, SoCal coastal
1.4, LA metro 1.3, else 1, first match wins) and finally clamps to
[50000, 1500000] and truncates to an integer. -/
theorem C2_strategy_a_structure (mi ha lat lon r b p o : ℚ) :
    predict_california_price mi ha lat lon r b p o =
      pyInt (clamp_price (regional_multiplier lat lon *
        (base_price + income_factor mi + coastal_premium lon +
         latitude_adjustment lat + age_factor ha + rooms_factor r +
         bedrooms_factor b + occupancy_factor o + population_factor p))) :=
  predict_multiplier_form mi ha lat lon r b p o

/-- Counterexample to C3 as stated: at latitude 34, longitude -118 the
location classifier takes the "Los Angeles Metro" branch, not the
"Southern California Inland" branch. -/
theorem C3_counterexample :
    get_location_insights 34 (-118) = Region.losAngelesMetro ∧
      Region.losAngelesMetro ≠ Region.southernCaliforniaInland := by
  constructor
  · norm_num [get_location_insights]
  · decide

/-- Claim C3 (amended: the coordinates are classified under the
"Los Angeles Metro" rule branch, not "Southern California Inland"): for
median_income=8.0, house_age=25, latitude=34.0, longitude=-118.0 and the
defaults for the remaining features, the Strategy A estimator returns the
deterministic integer price 671885, which lies within [50000, 1500000]. -/
theorem C3_example_prediction :
    predict_california_price 8 25 34 (-118) 5.33 1.08 1425 2.92 = 671885 ∧
      50000 ≤ predict_california_price 8 25 34 (-118) 5.33 1.08 1425 2.92 ∧
      predict_california_price 8 25 34 (-118) 5.33 1.08 1425 2.92 ≤ 1500000 ∧
      get_location_insights 34 (-118) = Region.losAngelesMetro := by
  have h : predict_california_price 8 25 34 (-118) 5.33 1.08 1425 2.92 = 671885 := by
    norm_num [predict_california_price, total_price, base_price, income_factor,
      coastal_premium, latitude_adjustment, age_factor, rooms_factor,
      bedrooms_factor, occupancy_factor, population_factor, bay_area_check,
      socal_coastal_check, la_metro_check, clamp_price, pyInt, max_def, min_def]
  refine ⟨h, ?_, ?_, ?_⟩
  · rw [h]; norm_num
  · rw [h]; norm_num
  · norm_num [get_location_insights]

/-- Claim C4: regional multiplier selection is exhaustive and, under the
first-matching-rule-wins order, exactly one of the four rules applies to
every input (each later case carries the negations of the earlier guards,
so the four cases are pairwise exclusive); at the Bay Area point
latitude 37.5, longitude -122.2 the multiplier is exactly 1.8. -/
theorem C4_multiplier_selection :
    (∀ lat lon : ℚ,
      (bay_area_check lat lon ∧ regional_multiplier lat lon = 1.8) ∨
      (¬bay_area_check lat lon ∧ socal_coastal_check lat lon ∧
        regional_multiplier lat lon = 1.4) ∨
      (¬bay_area_check lat lon ∧ ¬socal_coastal_check lat lon ∧
        la_metro_check lat lon ∧ regional_multiplier lat lon = 1.3) ∨
      (¬bay_area_check lat lon ∧ ¬socal_coastal_check lat lon ∧
        ¬la_metro_check lat lon ∧ regional_multiplier lat lon = 1)) ∧
    regional_multiplier 37.5 (-122.2) = 1.8 := by
  constructor
  · intro lat lon
    by_cases h1 : bay_area_check lat lon
    · exact Or.inl ⟨h1, by simp [regional_multiplier, h1]⟩
    · by_cases h2 : socal_coastal_check lat lon
      · exact Or.inr (Or.inl ⟨h1, h2, by simp [regional_multiplier, h1, h2]⟩)
      · by_cases h3 : la_metro_check lat lon
        · exact Or.inr (Or.inr (Or.inl ⟨h1, h2, h3,
            by simp [regional_multiplier, h1, h2, h3]⟩))
        · exact Or.inr (Or.inr (Or.inr ⟨h1, h2, h3,
            by simp [regional_multiplier, h1, h2, h3]⟩))
  · norm_num [regional_multiplier, bay_area_check]

/-- Claim C5: with the seven other features held fixed, strictly increasing
median_income strictly increases the raw price (the additive total before
the regional multiplier and the clamp). -/
theorem C5_income_monotonic (mi mi' ha lat lon r b p o : ℚ) (h : mi < mi') :
    total_price mi ha lat lon r b p o < total_price mi' ha lat lon r b p o := by
  have key : income_factor mi < income_factor mi' := by
    rw [income_factor_eq, income_factor_eq]
    have hc : (0 : ℚ) < 4000000 / 129 := by norm_num
    exact mul_lt_mul_of_pos_right h hc
  unfold total_price
  linarith

/-- Witness for C5: raising income from 4 to 8 raises the raw price. -/
theorem C5_witness :
    total_price 4 25 34 (-118) 5.33 1.08 1425 2.92 <
      total_price 8 25 34 (-118) 5.33 1.08 1425 2.92 :=
  C5_income_monotonic 4 8 25 34 (-118) 5.33 1.08 1425 2.92 (by norm_num)

/-- Counterexample to C6 as stated: for the estimate 671885 the displayed
margin is 100782 dollars, but 15 percent of the estimate is 100782.75, so
the margin is not equal to 15 percent of the estimate. -/
theorem C6_counterexample :
    confidence_upper 671885 - 671885 = 100782 ∧
      ((100782 : ℚ) ≠ 15 / 100 * 671885) := by
  constructor
  · norm_num [confidence_upper, confidence, pyInt]
  · norm_num

/-- Claim C6 (amended: the margin is 15 percent of the estimate truncated
to a whole dollar): for every nonnegative prediction the displayed
interval is the point estimate plus/minus a margin within (0.15p - 1, 0.15p],
and the interval is symmetric: upper - point = point - lower. -/
theorem C6_confidence_interval (p : ℤ) (hp : 0 ≤ p) :
    confidence_upper p - p = p - confidence_lower p ∧
      (confidence p : ℚ) ≤ 15 / 100 * (p : ℚ) ∧
      15 / 100 * (p : ℚ) - 1 < (confidence p : ℚ) := by
  have hp' : (0 : ℚ) ≤ (p : ℚ) := by exact_mod_cast hp
  have hpos : (0 : ℚ) ≤ (p : ℚ) * 0.15 := mul_nonneg hp' (by norm_num)
  have hc : (confidence p : ℚ) = ((Int.floor ((p : ℚ) * 0.15) : ℤ) : ℚ) := by
    unfold confidence
    rw [pyInt_eq_floor _ hpos]
  refine ⟨by unfold confidence_upper confidence_lower; ring, ?_, ?_⟩
  · rw [hc]
    have h1 := Int.floor_le ((p : ℚ) * 0.15)
    have h015 : (0.15 : ℚ) = 15 / 100 := by norm_num
    nlinarith [h1]
  · rw [hc]
    have h2 := Int.sub_one_lt_floor ((p : ℚ) * 0.15)
    nlinarith [h2]

/-- Witness for C6 at the prediction 671885. -/
theorem C6_witness :
    confidence_upper 671885 - 671885 = 671885 - confidence_lower 671885 ∧
      (confidence 671885 : ℚ) ≤ 15 / 100 * ((671885 : ℤ) : ℚ) ∧
      15 / 100 * ((671885 : ℤ) : ℚ) - 1 < (confidence 671885 : ℚ) :=
  C6_confidence_interval 671885 (by norm_num)

/-- Claim C7: the Strategy A estimator is deterministic and pure — two
calls on componentwise-identical inputs return identical outputs. -/
theorem C7_deterministic (mi ha lat lon r b p o mi' ha' lat' lon' r' b' p' o' : ℚ)
    (h1 : mi = mi') (h2 : ha = ha') (h3 : lat = lat') (h4 : lon = lon')
    (h5 : r = r') (h6 : b = b') (h7 : p = p') (h8 : o = o') :
    predict_california_price mi ha lat lon r b p o =
      predict_california_price mi' ha' lat' lon' r' b' p' o' := by
  subst h1 h2 h3 h4 h5 h6 h7 h8
  rfl

/-- Witness for C7 at the spec's example input. -/
theorem C7_witness :
    predict_california_price 8 25 34 (-118) 5.33 1.08 1425 2.92 =
      predict_california_price 8 25 34 (-118) 5.33 1.08 1425 2.92 :=
  C7_deterministic 8 25 34 (-118) 5.33 1.08 1425 2.92
    8 25 34 (-118) 5.33 1.08 1425 2.92 rfl rfl rfl rfl rfl rfl rfl rfl

/-- Claim C8: each qualitative factor label is present in the produced
label list exactly when its own threshold predicate over the input holds,
so every matching predicate's label is included and no label suppresses
another. -/
theorem C8_factor_labels : ∀ mi ha lat lon : ℚ,
    (Label.affluentArea ∈ market_context mi ha ↔ mi > 10) ∧
    (Label.budgetMarket ∈ market_context mi ha ↔ mi < 4) ∧
    (Label.newConstruction ∈ market_context mi ha ↔ ha < 10) ∧
    (Label.establishedNeighborhood ∈ market_context mi ha ↔ ha > 40) ∧
    (Label.strongAppreciation ∈ investment_context lat lon mi ↔
      name_has_coast_or_bay (get_location_insights lat lon) = true) ∧
    (Label.stableMarket ∈ investment_context lat lon mi ↔ mi > 8) := by
  intro mi ha lat lon
  unfold market_context investment_context
  refine ⟨?_, ?_, ?_, ?_, ?_, ?_⟩ <;>
    split_ifs <;> simp_all <;> linarith

/-- Claim C9: the 1.3 branch of the regional multiplier chain is
unreachable — every point satisfying the LA-metro check also satisfies the
earlier SoCal-coastal check, so the multiplier actually applied is always
one of 1.8, 1.4, 1 and never 1.3. -/
theorem C9_la_branch_unreachable : ∀ lat lon : ℚ,
    (la_metro_check lat lon → socal_coastal_check lat lon) ∧
    (regional_multiplier lat lon = 1.8 ∨ regional_multiplier lat lon = 1.4 ∨
      regional_multiplier lat lon = 1) ∧
    regional_multiplier lat lon ≠ 1.3 := by
  intro lat lon
  have himp : la_metro_check lat lon → socal_coastal_check lat lon :=
    fun h => ⟨h.2.1, h.2.2.2⟩
  have hval := regional_multiplier_cases lat lon
  refine ⟨himp, hval, ?_⟩
  rcases hval with h | h | h <;> rw [h] <;> norm_num

/-- Witness for C9 at the LA-metro point latitude 34, longitude -118. -/
theorem C9_witness :
    socal_coastal_check 34 (-118) ∧ regional_multiplier 34 (-118) ≠ 1.3 :=
  ⟨(C9_la_branch_unreachable 34 (-118)).1 (by norm_num [la_metro_check]),
   (C9_la_branch_unreachable 34 (-118)).2.2⟩

/-- Claim C10: on the documented input domain the price after the regional
multiplier lies strictly between 50000 and 1500000, so the final clamp
never changes the value and the estimator returns the truncated
un-clamped price. -/
theorem C10_clamp_never_active (mi ha lat lon r b p o : ℚ)
    (hmi0 : 0.5 ≤ mi) (hmi1 : mi ≤ 15) (hha0 : 1 ≤ ha) (hha1 : ha ≤ 52)
    (hr0 : 1 ≤ r) (hr1 : r ≤ 10) (hb0 : 0.5 ≤ b) (hb1 : b ≤ 3)
    (hp0 : 3 ≤ p) (hp1 : p ≤ 10000) (ho0 : 1 ≤ o) (ho1 : o ≤ 6)
    (hlat0 : 32 ≤ lat) (hlat1 : lat ≤ 42) (hlon0 : -124 ≤ lon) (hlon1 : lon ≤ -114) :
    50000 < regional_multiplier lat lon * total_price mi ha lat lon r b p o ∧
      regional_multiplier lat lon * total_price mi ha lat lon r b p o < 1500000 ∧
      predict_california_price mi ha lat lon r b p o =
        pyInt (regional_multiplier lat lon * total_price mi ha lat lon r b p o) := by
  obtain ⟨h1, h2⟩ := post_price_bounds mi ha lat lon r b p o hmi0 hmi1 hha0 hha1
    hr0 hr1 hb0 hb1 hp0 hp1 ho0 ho1 hlat0 hlat1 hlon0 hlon1
  refine ⟨h1, h2, ?_⟩
  rw [predict_multiplier_form, clamp_price_id _ (le_of_lt h1) (le_of_lt h2)]

/-- Witness for C10 at the spec's example input. -/
theorem C10_witness :
    50000 < regional_multiplier 34 (-118) *
        total_price 8 25 34 (-118) 5.33 1.08 1425 2.92 ∧
      regional_multiplier 34 (-118) *
        total_price 8 25 34 (-118) 5.33 1.08 1425 2.92 < 1500000 ∧
      predict_california_price 8 25 34 (-118) 5.33 1.08 1425 2.92 =
        pyInt (regional_multiplier 34 (-118) *
          total_price 8 25 34 (-118) 5.33 1.08 1425 2.92) :=
  C10_clamp_never_active 8 25 34 (-118) 5.33 1.08 1425 2.92
    (by norm_num) (by norm_num) (by norm_num) (by norm_num)
    (by norm_num) (by norm_num) (by norm_num) (by norm_num)
    (by norm_num) (by norm_num) (by norm_num) (by norm_num)
    (by norm_num) (by norm_num) (by norm_num) (by norm_num)
